import Mathlib

/-!
Shallow embedding of `xmtp_mls/src/subscriptions.rs` (the subscription and
streaming core of the libxmtp messaging client), together with theorems about
its claims: the local-event filters, the welcome processor, the conversation
stream's per-item filter, `StreamHandle::wait_for_ready`, and the
all-messages multiplexer loop of `stream_all_messages`.

Byte vectors (`Vec<u8>`) are `List Nat`; `u64` cursors are `Nat`; `i64`
timestamps are `Int`. Error types that live outside this file's source module
(`ClientError`, `GroupError`, `StorageError`, ...) are modelled by their
observable surface (a rendered message), since only their `to_string` and
their identity as carried payloads are used by the code under study.
-/

set_option autoImplicit false

namespace Subscriptions

/-- Model of byte strings (`Vec<u8>` in the source). -/
abbrev Bytes := List Nat

/-- Model of the external `ClientError` (from `client.rs`); the subscription
code constructs only its `Generic(String)` form and otherwise carries it
opaquely. -/
inductive ClientError where
  | Generic (msg : String)
deriving DecidableEq, Repr

/-- Model of the external `GroupError`; the subscription code only renders it
with `to_string`, so it is modelled by that rendering. -/
structure GroupError where
  msg : String
deriving DecidableEq, Repr

/-- Model of the external `StorageError`; again only its `to_string` is used. -/
structure StorageError where
  msg : String
deriving DecidableEq, Repr

/-- Model of the external `GroupMessageProcessingError` payload. -/
structure GroupMessageProcessingError where
  msg : String
deriving DecidableEq, Repr

/-- Model of `diesel::result::Error` payloads. -/
structure DieselError where
  msg : String
deriving DecidableEq, Repr

/-- Model of `xmtp_proto::Error` payloads. -/
structure ApiError where
  msg : String
deriving DecidableEq, Repr

/-- Model of `prost::DecodeError` payloads. -/
structure DecodeError where
  msg : String
deriving DecidableEq, Repr

/-- The `SubscribeError` enum of `subscriptions.rs`, constructor for
constructor. -/
inductive SubscribeError where
  | FailedToStartNewMessagesStream (e : ClientError)
  | Client (e : ClientError)
  | Group (e : GroupError)
  | GroupMessageNotFound
  | ReceiveGroup (e : GroupMessageProcessingError)
  | Database (e : DieselError)
  | Storage (e : StorageError)
  | Api (e : ApiError)
  | Decode (e : DecodeError)
deriving DecidableEq, Repr

/-- The `ConversationType` enum from the storage layer (`Group`, `Dm`,
`Sync`), as described by the data model of the spec. -/
inductive ConversationType where
  | Group
  | Dm
  | Sync
deriving DecidableEq, Repr

/-- Model of `MlsGroup`, restricted to the fields the subscription code
reads and the `MlsGroup::new(client, id, created_at_ns)` constructor's data
arguments. -/
structure MlsGroup where
  group_id : Bytes
  created_at_ns : Int
deriving DecidableEq, Repr

/-- Model of `GroupMetadata`, restricted to the `conversation_type` field
read by the conversation stream's filter. -/
structure GroupMetadata where
  conversation_type : ConversationType
deriving DecidableEq, Repr

/-- Model of `StoredGroup` rows, restricted to the fields the subscription
code reads (`id`, `created_at_ns`, `welcome_id`). -/
structure StoredGroup where
  id : Bytes
  created_at_ns : Int
  welcome_id : Option Int
deriving DecidableEq, Repr

/-- Model of `StoredGroupMessage`, restricted to the fields the spec's data
model names as relevant to the core. -/
structure StoredGroupMessage where
  group_id : Bytes
  decrypted_message_bytes : Bytes
deriving DecidableEq, Repr

/-- Model of `StoredConsentRecord` payloads (opaque to the subscription
code; carried through the consent filter unchanged). -/
structure StoredConsentRecord where
  payload : Bytes
deriving DecidableEq, Repr

/-- The `UserPreferenceUpdate` enum from the preference-sync module: per the
spec's data model it is either `ConsentUpdate(StoredConsentRecord)` or one of
several other (non-consent) variants, here represented by `Other`. -/
inductive UserPreferenceUpdate where
  | ConsentUpdate (cr : StoredConsentRecord)
  | Other (payload : Bytes)
deriving DecidableEq, Repr

/-- The `SyncMessage` enum of `subscriptions.rs`. -/
inductive SyncMessage where
  | Request (message_id : Bytes)
  | Reply (message_id : Bytes)
deriving DecidableEq, Repr

/-- The `LocalEvents` enum of `subscriptions.rs`, constructor for
constructor. -/
inductive LocalEvents where
  | NewGroup (g : MlsGroup)
  | SyncMessage (m : SyncMessage)
  | OutgoingPreferenceUpdates (updates : List UserPreferenceUpdate)
  | IncomingPreferenceUpdate (updates : List UserPreferenceUpdate)
deriving DecidableEq, Repr

namespace LocalEvents

/-- `LocalEvents::group_filter`: keep only `NewGroup` payloads. -/
def group_filter : LocalEvents → Option MlsGroup
  | NewGroup c => some c
  | _ => none

/-- `LocalEvents::sync_filter`: keep `SyncMessage` and both preference-update
variants whole. -/
def sync_filter : LocalEvents → Option LocalEvents
  | SyncMessage m => some (SyncMessage m)
  | OutgoingPreferenceUpdates u => some (OutgoingPreferenceUpdates u)
  | IncomingPreferenceUpdate u => some (IncomingPreferenceUpdate u)
  | _ => none

/-- The inner `filter_map` closure of `consent_filter`: keep only
`ConsentUpdate` payloads. -/
def consentProj : UserPreferenceUpdate → Option StoredConsentRecord
  | UserPreferenceUpdate.ConsentUpdate cr => some cr
  | _ => none

/-- The inner `filter_map` closure of `preference_filter`: drop
`ConsentUpdate`, keep every other variant unchanged. -/
def preferenceProj : UserPreferenceUpdate → Option UserPreferenceUpdate
  | UserPreferenceUpdate.ConsentUpdate _ => none
  | pu => some pu

/-- `LocalEvents::consent_filter`: on either preference-update variant,
extract the `ConsentUpdate` records; on every other variant, `None`. -/
def consent_filter : LocalEvents → Option (List StoredConsentRecord)
  | OutgoingPreferenceUpdates updates => some (updates.filterMap consentProj)
  | IncomingPreferenceUpdate updates => some (updates.filterMap consentProj)
  | _ => none

/-- `LocalEvents::preference_filter`: on either preference-update variant,
keep exactly the non-consent updates; on every other variant, `None`. -/
def preference_filter : LocalEvents → Option (List UserPreferenceUpdate)
  | OutgoingPreferenceUpdates updates => some (updates.filterMap preferenceProj)
  | IncomingPreferenceUpdate updates => some (updates.filterMap preferenceProj)
  | _ => none

end LocalEvents

/-- The `MessagesStreamInfo` struct of `subscriptions.rs`: the per-group
snapshot value `{convo_created_at_ns, cursor}`. -/
structure MessagesStreamInfo where
  convo_created_at_ns : Int
  cursor : Nat
deriving DecidableEq, Repr

/-- The `From<StoredGroup>` conversion of `subscriptions.rs`: a stored group
becomes the map entry `(group.id, {convo_created_at_ns: group.created_at_ns,
cursor: 0})`. -/
def storedGroupToEntry (group : StoredGroup) : Bytes × MessagesStreamInfo :=
  (group.id, { convo_created_at_ns := group.created_at_ns, cursor := 0 })

/-- Rust's `as i64` cast applied to a `u64` value, as in
`welcome_v1.id as i64`. -/
def u64_as_i64 (n : Nat) : Int :=
  if n % 2 ^ 64 < 2 ^ 63 then (n % 2 ^ 64 : Int) else (n % 2 ^ 64 : Int) - 2 ^ 64

/-- The decoded v1 welcome envelope `{id, hpke_public_key, data}` produced by
`extract_welcome_message`. -/
structure WelcomeV1 where
  id : Nat
  hpke_public_key : Bytes
  data : Bytes
deriving DecidableEq, Repr

/-- `Client::process_streamed_welcome`, with its external collaborators
passed as explicit arguments: `extract` is the outcome of
`extract_welcome_message(welcome)`, `create` the post-retry outcome of the
transactional `MlsGroup::create_from_encrypted_welcome` attempt, and
`find_group_by_welcome_id` the storage lookup. On creation failure the code
queries storage at `welcome_v1.id as i64`; a found row yields
`MlsGroup::new(client, group.id, group.created_at_ns)`, a missing row
surfaces `ClientError::Generic(err.to_string())`, and a lookup error
surfaces `ClientError::Generic(e.to_string())`. -/
def process_streamed_welcome
    (extract : Except ClientError WelcomeV1)
    (create : WelcomeV1 → Except GroupError MlsGroup)
    (find_group_by_welcome_id : Int → Except StorageError (Option StoredGroup)) :
    Except ClientError MlsGroup := do
  let welcome_v1 ← extract
  match create welcome_v1 with
  | Except.ok group => Except.ok group
  | Except.error err =>
    match find_group_by_welcome_id (u64_as_i64 welcome_v1.id) with
    | Except.ok (some group) =>
        Except.ok { group_id := group.id, created_at_ns := group.created_at_ns }
    | Except.ok none => Except.error (ClientError.Generic err.msg)
    | Except.error e => Except.error (ClientError.Generic e.msg)

/-- Rust's `Result::transpose` on `Result<Option<A>, E>`, as used at the end
of the conversation stream's per-item closure. -/
def exceptTranspose {E A : Type} : Except E (Option A) → Option (Except E A)
  | Except.ok (some a) => some (Except.ok a)
  | Except.ok none => none
  | Except.error e => some (Except.error e)

/-- The per-item body of the `filter_map` closure inside
`stream_conversations`: given the outcome of `process_streamed_convo`
(metadata and group on success), apply
`conversation_type.map_or(true, |ct| ct == metadata.conversation_type)
.then_some(group)` and transpose. -/
def stream_conversations_item (conversation_type : Option ConversationType)
    (resolved : Except SubscribeError (GroupMetadata × MlsGroup)) :
    Option (Except SubscribeError MlsGroup) :=
  exceptTranspose <| resolved.map fun mg =>
    if (match conversation_type with
        | none => true
        | some ct => decide (ct = mg.1.conversation_type)) then
      some mg.2
    else
      none

/-- Possible outcomes of awaiting the oneshot readiness receiver of a
`StreamHandle`: the sender signalled, or the sender side was dropped. -/
inductive OneshotOutcome where
  | signaled
  | senderDropped
deriving DecidableEq, Repr

/-- Model of `StreamHandle`, restricted to the `start` readiness receiver
(the `JoinHandle` it also carries is outside the claims). The receiver is
represented by its pending await outcome. -/
structure StreamHandle where
  start : Option OneshotOutcome
deriving DecidableEq, Repr

/-- `StreamHandle::wait_for_ready`:
`if let Some(s) = self.start.take() { let _ = s.await; }`. Returns the
updated handle and whether this call actually awaited the receiver; the
`let _ =` discards the await's `Result`, so the call completes for either
`OneshotOutcome`. -/
def wait_for_ready (h : StreamHandle) : StreamHandle × Bool :=
  match h.start with
  | some _ => ({ start := none }, true)
  | none => (h, false)

/-! ### The `group_id_to_info` map

`HashMap<Vec<u8>, MessagesStreamInfo>` is modelled as an association list
with the usual lookup-respecting `insert`; the operations used by
`stream_all_messages` are `contains_key`, `values_mut` (cursor reset),
`insert` and `clone`. -/

/-- Association-list model of `HashMap<Vec<u8>, MessagesStreamInfo>`. -/
abbrev GroupMap := List (Bytes × MessagesStreamInfo)

/-- Lookup of a key in the map. -/
def lookupEntry : GroupMap → Bytes → Option MessagesStreamInfo
  | [], _ => none
  | (k', v) :: rest, k => if k' = k then some v else lookupEntry rest k

/-- `HashMap::contains_key`. -/
def containsKey (m : GroupMap) (k : Bytes) : Bool :=
  (lookupEntry m k).isSome

/-- `HashMap::insert`: replace the value at an existing key, or add the
binding. -/
def insertEntry : GroupMap → Bytes → MessagesStreamInfo → GroupMap
  | [], k, v => [(k, v)]
  | (k', v') :: rest, k, v =>
      if k' = k then (k, v) :: rest else (k', v') :: insertEntry rest k v

/-- The `for info in group_id_to_info.values_mut() { info.cursor = 0; }`
loop: every entry's cursor is set to `0`. -/
def resetCursors (m : GroupMap) : GroupMap :=
  m.map fun p => (p.1, { p.2 with cursor := 0 })

/-- The map snapshot that `stream_all_messages` hands to the fan-in rebuild
after discovering a fresh group `g`: all existing cursors reset to `0`, then
`(g.group_id, {convo_created_at_ns: g.created_at_ns, cursor: 1})` inserted. -/
def newGroupSnapshot (m : GroupMap) (g : MlsGroup) : GroupMap :=
  insertEntry (resetCursors m) g.group_id
    { convo_created_at_ns := g.created_at_ns, cursor := 1 }

/-! ### The all-messages multiplexer loop

The `async_stream::stream!` body of `stream_all_messages` is embedded as a
step function over an explicit state. Streams are scripted: a stream is the
list of items it will still yield, empty meaning exhausted (`next()` returns
`None`). Readiness at a `select!` round is an oracle input (`msgReady`,
`convoReady`): a non-empty stream whose flag is `false` is pending this
round. The `tokio::select! { biased; ... }` polls its three branches in
written order — `extra_messages` (guarded by non-emptiness and backed by
`future::ready`, hence ready whenever enabled), then `messages_stream.next()`
(pattern `Some(message)`), then `convo_stream.next()` (pattern
`Some(new_group)`) — and panics when every branch is disabled, the loop
having no other exit. The fan-in rebuild `subscriptions::stream_messages`
is an oracle from the map snapshot to either a construction error or the
new stream's script, and the `now_or_never` drain of the old stream takes
its first `nReady` items (those immediately ready). -/

deriving instance DecidableEq for Except

/-- Items of the messages fan-in and of the output stream:
`Result<StoredGroupMessage, SubscribeError>`. -/
abbrev OutItem := Except SubscribeError StoredGroupMessage

/-- Items of the conversation stream inside `stream_all_messages`:
`Result<MlsGroup, SubscribeError>`. -/
abbrev ConvoItem := Except SubscribeError MlsGroup

/-- State of the `stream_all_messages` loop: the owned `group_id_to_info`
map, the `extra_messages` buffer, and the scripts of the two upstream
streams. -/
structure MuxState where
  groupIdToInfo : GroupMap
  extraMessages : List OutItem
  messagesStream : List OutItem
  convoStream : List ConvoItem
deriving DecidableEq, Repr

/-- Outcome of one `select!` iteration of the loop: the items yielded this
iteration and the successor state, or a panic (all branches disabled, no
`else` arm), or a suspension (no enabled branch ready yet). -/
inductive StepResult where
  | yields (out : List OutItem) (s : MuxState)
  | panics
  | waits
deriving DecidableEq, Repr

/-- The outcome of `subscriptions::stream_messages` on a snapshot: either a
`ClientError` or the script of the freshly built fan-in. -/
abbrev RebuildOracle := GroupMap → Except ClientError (List OutItem)

/-- The `Some(new_group) = convo_stream.next()` arm of the loop, applied to
a state whose `convoStream` has already been popped. An `Err` item is
yielded as-is. For a fresh group the map is mutated (reset all cursors, then
insert the new entry with cursor `1`), the fan-in is rebuilt from the new
snapshot — on failure one `FailedToStartNewMessagesStream` error is yielded
and the old stream kept — and on success the old stream's ready items are
drained into `extra_messages` before `messages_stream.set(new)`. -/
def handleConvoItem (rebuild : RebuildOracle) (nReady : Nat)
    (item : ConvoItem) (s : MuxState) : StepResult :=
  match item with
  | Except.error e => StepResult.yields [Except.error e] s
  | Except.ok new_group =>
    if containsKey s.groupIdToInfo new_group.group_id then
      StepResult.yields [] s
    else
      let snapshot := newGroupSnapshot s.groupIdToInfo new_group
      match rebuild snapshot with
      | Except.error e =>
          StepResult.yields
            [Except.error (SubscribeError.FailedToStartNewMessagesStream e)]
            { s with groupIdToInfo := snapshot }
      | Except.ok new_messages_stream =>
          StepResult.yields []
            { s with
              groupIdToInfo := snapshot
              extraMessages := s.extraMessages ++ s.messagesStream.take nReady
              messagesStream := new_messages_stream }

/-- One iteration of the `loop { tokio::select! { biased; ... } }` of
`stream_all_messages`, under the readiness oracles. -/
def muxStep (msgReady convoReady : Bool) (rebuild : RebuildOracle)
    (nReady : Nat) (s : MuxState) : StepResult :=
  match s.extraMessages with
  | e :: es =>
      StepResult.yields (e :: es) { s with extraMessages := [] }
  | [] =>
    match msgReady, s.messagesStream with
    | true, message :: rest =>
        StepResult.yields [message] { s with messagesStream := rest }
    | _, _ =>
      match convoReady, s.convoStream with
      | true, item :: rest =>
          handleConvoItem rebuild nReady item { s with convoStream := rest }
      | _, _ =>
          if s.messagesStream = [] ∧ s.convoStream = [] then
            StepResult.panics
          else
            StepResult.waits

/-! ## Theorems -/

/-- C7: for every `OutgoingPreferenceUpdates` or `IncomingPreferenceUpdate`
event and every update it carries, the update lands in exactly one of the two
filtered outputs — the consent filter keeps it iff it is a `ConsentUpdate`
(extracting the record), the preference filter keeps it iff it is not a
`ConsentUpdate` — and both filters send every other `LocalEvents` variant to
`None`. -/
theorem claim_C7_filters_partition :
    (∀ (us : List UserPreferenceUpdate) (ev : LocalEvents),
      (ev = LocalEvents.OutgoingPreferenceUpdates us
        ∨ ev = LocalEvents.IncomingPreferenceUpdate us) →
      LocalEvents.consent_filter ev = some (us.filterMap LocalEvents.consentProj)
      ∧ LocalEvents.preference_filter ev = some (us.filterMap LocalEvents.preferenceProj)
      ∧ ∀ u ∈ us,
          (∀ cr, u = UserPreferenceUpdate.ConsentUpdate cr →
            cr ∈ us.filterMap LocalEvents.consentProj
            ∧ u ∉ us.filterMap LocalEvents.preferenceProj)
          ∧ ((∀ cr, u ≠ UserPreferenceUpdate.ConsentUpdate cr) →
            u ∈ us.filterMap LocalEvents.preferenceProj
            ∧ LocalEvents.consentProj u = none))
    ∧ (∀ (g : MlsGroup) (sm : SyncMessage),
        LocalEvents.consent_filter (LocalEvents.NewGroup g) = none
        ∧ LocalEvents.preference_filter (LocalEvents.NewGroup g) = none
        ∧ LocalEvents.consent_filter (LocalEvents.SyncMessage sm) = none
        ∧ LocalEvents.preference_filter (LocalEvents.SyncMessage sm) = none) := by
  constructor
  · intro us ev hev
    have hfilters :
        LocalEvents.consent_filter ev = some (us.filterMap LocalEvents.consentProj)
        ∧ LocalEvents.preference_filter ev = some (us.filterMap LocalEvents.preferenceProj) := by
      rcases hev with h | h <;> subst h <;>
        exact ⟨rfl, rfl⟩
    refine ⟨hfilters.1, hfilters.2, ?_⟩
    intro u hu
    constructor
    · intro cr hcr
      constructor
      · exact List.mem_filterMap.mpr ⟨u, hu, by rw [hcr]; rfl⟩
      · intro hmem
        obtain ⟨b, _, hfb⟩ := List.mem_filterMap.mp hmem
        cases b with
        | ConsentUpdate c => exact Option.noConfusion hfb
        | Other p =>
            have : u = UserPreferenceUpdate.Other p :=
              (Option.some.injEq _ _ ▸ hfb).symm
            rw [hcr] at this
            exact UserPreferenceUpdate.noConfusion this
    · intro hnc
      cases u with
      | ConsentUpdate cr => exact absurd rfl (hnc cr)
      | Other p =>
          exact ⟨List.mem_filterMap.mpr ⟨_, hu, rfl⟩, rfl⟩
  · intro g sm
    exact ⟨rfl, rfl, rfl, rfl⟩

/-- C7 witness: a concrete consent record is extracted by the consent filter
and its carrying update is absent from the preference filter's output. -/
theorem claim_C7_filters_partition_witness :
    (⟨[0]⟩ : StoredConsentRecord) ∈
      [UserPreferenceUpdate.ConsentUpdate ⟨[0]⟩,
        UserPreferenceUpdate.Other [1]].filterMap LocalEvents.consentProj
    ∧ UserPreferenceUpdate.ConsentUpdate ⟨[0]⟩ ∉
      [UserPreferenceUpdate.ConsentUpdate ⟨[0]⟩,
        UserPreferenceUpdate.Other [1]].filterMap LocalEvents.preferenceProj := by
  have h := (claim_C7_filters_partition.1
      [UserPreferenceUpdate.ConsentUpdate ⟨[0]⟩, UserPreferenceUpdate.Other [1]]
      (LocalEvents.OutgoingPreferenceUpdates
        [UserPreferenceUpdate.ConsentUpdate ⟨[0]⟩, UserPreferenceUpdate.Other [1]])
      (Or.inl rfl)).2.2
      (UserPreferenceUpdate.ConsentUpdate ⟨[0]⟩) (by simp)
  exact (h.1 ⟨[0]⟩ rfl)

/-- C8: a successfully resolved conversation survives the
`conversation_type` filter of `stream_conversations` iff the filter is
absent or matches its metadata's type, and a per-item resolution error is
yielded as an `Err` item rather than filtered out. -/
theorem claim_C8_conversation_filter :
    ∀ (ct : ConversationType) (md : GroupMetadata) (g : MlsGroup)
      (e : SubscribeError) (cto : Option ConversationType),
    (stream_conversations_item (some ct) (Except.ok (md, g)) =
      if ct = md.conversation_type then some (Except.ok g) else none)
    ∧ stream_conversations_item none (Except.ok (md, g)) = some (Except.ok g)
    ∧ stream_conversations_item cto (Except.error e) = some (Except.error e) := by
  intro ct md g e cto
  refine ⟨?_, rfl, ?_⟩
  · by_cases h : ct = md.conversation_type <;>
      simp [stream_conversations_item, exceptTranspose, Except.map, h]
  · cases cto <;> rfl

/-- C9: `wait_for_ready` resolves at most once — the first call takes and
awaits the readiness receiver (completing identically whether the sender
signalled or was dropped), and every call on the resulting handle is a
no-op that awaits nothing. -/
theorem claim_C9_wait_for_ready_once :
    ∀ (h : StreamHandle) (o : OneshotOutcome),
    (wait_for_ready h).2 = h.start.isSome
    ∧ (wait_for_ready h).1.start = none
    ∧ wait_for_ready { start := some o } = ({ start := none }, true)
    ∧ wait_for_ready (wait_for_ready h).1 = ((wait_for_ready h).1, false) := by
  intro h o
  cases hs : h.start <;> simp [wait_for_ready, hs]

/-- C2: `process_streamed_welcome` returns the created conversation on
success; on creation failure it queries storage at the welcome id and
returns the existing group when found, surfaces the creation error when no
row exists, and surfaces the storage error when the lookup itself fails. -/
theorem claim_C2_welcome_idempotency :
    ∀ (w : WelcomeV1) (create : WelcomeV1 → Except GroupError MlsGroup)
      (find : Int → Except StorageError (Option StoredGroup))
      (g : MlsGroup) (err : GroupError) (sg : StoredGroup) (se : StorageError),
    (create w = Except.ok g →
      process_streamed_welcome (Except.ok w) create find = Except.ok g)
    ∧ (create w = Except.error err →
      (find (u64_as_i64 w.id) = Except.ok (some sg) →
        process_streamed_welcome (Except.ok w) create find =
          Except.ok { group_id := sg.id, created_at_ns := sg.created_at_ns })
      ∧ (find (u64_as_i64 w.id) = Except.ok none →
        process_streamed_welcome (Except.ok w) create find =
          Except.error (ClientError.Generic err.msg))
      ∧ (find (u64_as_i64 w.id) = Except.error se →
        process_streamed_welcome (Except.ok w) create find =
          Except.error (ClientError.Generic se.msg))) := by
  intro w create find g err sg se
  constructor
  · intro hc
    simp [process_streamed_welcome, Bind.bind, Except.bind, hc]
  · intro hc
    refine ⟨?_, ?_, ?_⟩ <;> intro hf <;>
      simp [process_streamed_welcome, Bind.bind, Except.bind, hc, hf]

/-- C2 witness: the three failure outcomes and the success outcome at
concrete inputs. -/
theorem claim_C2_welcome_idempotency_witness :
    process_streamed_welcome (Except.ok ⟨1, [], []⟩)
      (fun _ => Except.error ⟨"creation failed"⟩)
      (fun _ => Except.ok (some ⟨[2], 3, some 1⟩)) =
        Except.ok { group_id := [2], created_at_ns := 3 }
    ∧ process_streamed_welcome (Except.ok ⟨1, [], []⟩)
      (fun _ => Except.error ⟨"creation failed"⟩)
      (fun _ => Except.ok none) =
        Except.error (ClientError.Generic "creation failed")
    ∧ process_streamed_welcome (Except.ok ⟨1, [], []⟩)
      (fun _ => Except.error ⟨"creation failed"⟩)
      (fun _ => Except.error ⟨"storage down"⟩) =
        Except.error (ClientError.Generic "storage down")
    ∧ process_streamed_welcome (Except.ok ⟨1, [], []⟩)
      (fun _ => Except.ok ⟨[9], 9⟩)
      (fun _ => Except.ok none) = Except.ok ⟨[9], 9⟩ := by
  refine ⟨?_, ?_, ?_, ?_⟩
  · exact ((claim_C2_welcome_idempotency ⟨1, [], []⟩ _ _ ⟨[9], 9⟩ ⟨"creation failed"⟩
      ⟨[2], 3, some 1⟩ ⟨"storage down"⟩).2 rfl).1 rfl
  · exact ((claim_C2_welcome_idempotency ⟨1, [], []⟩ _ _ ⟨[9], 9⟩ ⟨"creation failed"⟩
      ⟨[2], 3, some 1⟩ ⟨"storage down"⟩).2 rfl).2.1 rfl
  · exact ((claim_C2_welcome_idempotency ⟨1, [], []⟩ _ _ ⟨[9], 9⟩ ⟨"creation failed"⟩
      ⟨[2], 3, some 1⟩ ⟨"storage down"⟩).2 rfl).2.2 rfl
  · exact (claim_C2_welcome_idempotency ⟨1, [], []⟩ _ _ ⟨[9], 9⟩ ⟨"creation failed"⟩
      ⟨[2], 3, some 1⟩ ⟨"storage down"⟩).1 rfl

/-! ### Association-list map lemmas (shared helpers) -/

/-- Looking up the freshly inserted key returns the inserted value. -/
theorem lookupEntry_insertEntry_self (m : GroupMap) (k : Bytes)
    (v : MessagesStreamInfo) : lookupEntry (insertEntry m k v) k = some v := by
  induction m with
  | nil => simp [insertEntry, lookupEntry]
  | cons p rest ih =>
      by_cases h : p.1 = k <;>
        simp [insertEntry, lookupEntry, h, ih]

/-- Insertion does not disturb lookups at other keys. -/
theorem lookupEntry_insertEntry_ne (m : GroupMap) (k k' : Bytes)
    (v : MessagesStreamInfo) (h : k' ≠ k) :
    lookupEntry (insertEntry m k v) k' = lookupEntry m k' := by
  induction m with
  | nil => simp [insertEntry, lookupEntry, Ne.symm h]
  | cons p rest ih =>
      by_cases hp : p.1 = k
      · subst hp
        simp [insertEntry, lookupEntry, Ne.symm h]
      · by_cases hp' : p.1 = k' <;>
          simp [insertEntry, lookupEntry, hp, hp', h, ih]

/-- The cursor reset rewrites every stored value pointwise. -/
theorem lookupEntry_resetCursors (m : GroupMap) (k : Bytes) :
    lookupEntry (resetCursors m) k =
      (lookupEntry m k).map (fun i => { i with cursor := 0 }) := by
  induction m with
  | nil => simp [resetCursors, lookupEntry]
  | cons p rest ih =>
      by_cases h : p.1 = k
      · simp [resetCursors, lookupEntry, h]
      · simp [resetCursors, lookupEntry, h]
        simpa [resetCursors] using ih

/-- Lookup facts about the snapshot built for a fresh group: the new group is
present with cursor `1`, and every other key's entry is the old one with its
cursor reset to `0`. -/
theorem lookupEntry_newGroupSnapshot (m : GroupMap) (g : MlsGroup) :
    lookupEntry (newGroupSnapshot m g) g.group_id =
      some { convo_created_at_ns := g.created_at_ns, cursor := 1 }
    ∧ ∀ k, k ≠ g.group_id →
      lookupEntry (newGroupSnapshot m g) k =
        (lookupEntry m k).map (fun i => { i with cursor := 0 }) := by
  constructor
  · exact lookupEntry_insertEntry_self _ _ _
  · intro k hk
    rw [newGroupSnapshot, lookupEntry_insertEntry_ne _ _ _ _ hk,
      lookupEntry_resetCursors]

/-- Every conversation-arm outcome is a `yields`: processing a conversation
item never panics and never suspends inside the arm. -/
theorem handleConvoItem_yields (rb : RebuildOracle) (n : Nat)
    (item : ConvoItem) (s : MuxState) :
    ∃ out s1, handleConvoItem rb n item s = StepResult.yields out s1 := by
  cases item with
  | error e => exact ⟨_, _, rfl⟩
  | ok g =>
    by_cases h : containsKey s.groupIdToInfo g.group_id = true
    · exact ⟨[], s, by simp [handleConvoItem, h]⟩
    · rcases hrb : rb (newGroupSnapshot s.groupIdToInfo g) with e | ns
      · exact ⟨[Except.error (SubscribeError.FailedToStartNewMessagesStream e)],
          { s with groupIdToInfo := newGroupSnapshot s.groupIdToInfo g },
          by simp [handleConvoItem, h, hrb]⟩
      · exact ⟨[],
          { s with groupIdToInfo := newGroupSnapshot s.groupIdToInfo g,
                   extraMessages := s.extraMessages ++ s.messagesStream.take n,
                   messagesStream := ns },
          by simp [handleConvoItem, h, hrb]⟩

/-- Priority 1 of the biased select: whenever `extra_messages` is non-empty,
the iteration drains and yields exactly it, touching neither upstream
stream, regardless of their readiness. -/
theorem muxStep_extra_priority (mr cr : Bool) (rb : RebuildOracle) (n : Nat)
    (s : MuxState) (h : s.extraMessages ≠ []) :
    muxStep mr cr rb n s =
      StepResult.yields s.extraMessages { s with extraMessages := [] } := by
  obtain ⟨m, ex, ms, cs⟩ := s
  cases ex with
  | nil => simp at h
  | cons e es => rfl

/-- C4: a conversation item whose `group_id` is already a key of
`group_id_to_info` is skipped — nothing is yielded, the map, the
`extra_messages` buffer and the messages stream are untouched, and the
outcome does not depend on the rebuild or drain oracles (no rebuild
occurs). -/
theorem claim_C4_dedup_skip :
    ∀ (mr : Bool) (rb1 rb2 : RebuildOracle) (n1 n2 : Nat) (g : MlsGroup)
      (rest : List ConvoItem) (s : MuxState),
    s.extraMessages = [] →
    (mr = false ∨ s.messagesStream = []) →
    s.convoStream = Except.ok g :: rest →
    containsKey s.groupIdToInfo g.group_id = true →
    muxStep mr true rb1 n1 s = StepResult.yields [] { s with convoStream := rest }
    ∧ muxStep mr true rb1 n1 s = muxStep mr true rb2 n2 s := by
  intro mr rb1 rb2 n1 n2 g rest s hex hmr hcs hk
  obtain ⟨m, ex, ms, cs⟩ := s
  simp only at hex hcs hk
  subst hex hcs
  have h1 : ∀ (rb : RebuildOracle) (n : Nat),
      muxStep mr true rb n ⟨m, [], ms, Except.ok g :: rest⟩ =
        StepResult.yields [] ⟨m, [], ms, rest⟩ := by
    intro rb n
    rcases hmr with h | h
    · subst h
      simp [muxStep, handleConvoItem, hk]
    · simp only at h
      subst h
      cases mr <;> simp [muxStep, handleConvoItem, hk]
  exact ⟨h1 rb1 n1, (h1 rb1 n1).trans (h1 rb2 n2).symm⟩

/-- C4 witness: a concrete re-announced group is skipped without output or
state change beyond consuming the conversation item. -/
theorem claim_C4_dedup_skip_witness :
    muxStep false true (fun _ => Except.ok []) 0
      ⟨[([1], ⟨4, 1⟩)], [], [], [Except.ok ⟨[1], 9⟩]⟩ =
      StepResult.yields [] ⟨[([1], ⟨4, 1⟩)], [], [], []⟩ :=
  (claim_C4_dedup_skip false (fun _ => Except.ok []) (fun _ => Except.ok []) 0 0
    ⟨[1], 9⟩ [] ⟨[([1], ⟨4, 1⟩)], [], [], [Except.ok ⟨[1], 9⟩]⟩
    rfl (Or.inl rfl) rfl (by decide)).1

/-- C3: on a fresh group the multiplexer builds the snapshot in which the
new `group_id` maps to `{convo_created_at_ns: g.created_at_ns, cursor: 1}`
and every previously existing entry keeps its timestamp with its cursor
reset to `0`; the step consults the rebuild oracle only at that snapshot,
and whatever the iteration yields, its successor state carries exactly that
snapshot. -/
theorem claim_C3_snapshot_update :
    ∀ (rb rb2 : RebuildOracle) (n : Nat) (g : MlsGroup)
      (rest : List ConvoItem) (s : MuxState),
    s.extraMessages = [] →
    s.convoStream = Except.ok g :: rest →
    containsKey s.groupIdToInfo g.group_id = false →
    lookupEntry (newGroupSnapshot s.groupIdToInfo g) g.group_id =
      some { convo_created_at_ns := g.created_at_ns, cursor := 1 }
    ∧ (∀ k, k ≠ g.group_id →
        lookupEntry (newGroupSnapshot s.groupIdToInfo g) k =
          (lookupEntry s.groupIdToInfo k).map (fun i => { i with cursor := 0 }))
    ∧ (rb2 (newGroupSnapshot s.groupIdToInfo g) = rb (newGroupSnapshot s.groupIdToInfo g) →
        muxStep false true rb2 n s = muxStep false true rb n s)
    ∧ (∀ out s1, muxStep false true rb n s = StepResult.yields out s1 →
        s1.groupIdToInfo = newGroupSnapshot s.groupIdToInfo g) := by
  intro rb rb2 n g rest s hex hcs hk
  obtain ⟨m, ex, ms, cs⟩ := s
  simp only at hex hcs hk
  subst hex hcs
  refine ⟨(lookupEntry_newGroupSnapshot m g).1, (lookupEntry_newGroupSnapshot m g).2, ?_, ?_⟩
  · intro hrb
    simp [muxStep, handleConvoItem, hk, hrb]
  · intro out s1 hstep
    rcases hrb : rb (newGroupSnapshot m g) with e | ns <;>
      simp [muxStep, handleConvoItem, hk, hrb] at hstep <;>
      rw [← hstep.2]

/-- C3 witness: the concrete snapshot facts and the map carried by the
successor state. -/
theorem claim_C3_snapshot_update_witness :
    lookupEntry (newGroupSnapshot [([2], ⟨3, 5⟩)] ⟨[1], 4⟩) [1] = some ⟨4, 1⟩
    ∧ lookupEntry (newGroupSnapshot [([2], ⟨3, 5⟩)] ⟨[1], 4⟩) [2] = some ⟨3, 0⟩ := by
  have h := claim_C3_snapshot_update (fun _ => Except.ok []) (fun _ => Except.ok []) 0
    ⟨[1], 4⟩ [] ⟨[([2], ⟨3, 5⟩)], [], [], [Except.ok ⟨[1], 4⟩]⟩ rfl rfl (by decide)
  refine ⟨h.1, ?_⟩
  rw [h.2.1 [2] (by decide)]
  decide

/-- C6: when the fan-in rebuild for the updated snapshot fails, the
iteration yields exactly one `FailedToStartNewMessagesStream` error carrying
the construction error and continues with the old messages stream in place
(only the map mutation and the consumed conversation item distinguish the
successor state). -/
theorem claim_C6_rebuild_failure :
    ∀ (rb : RebuildOracle) (n : Nat) (g : MlsGroup) (rest : List ConvoItem)
      (s : MuxState) (e : ClientError),
    s.extraMessages = [] →
    s.convoStream = Except.ok g :: rest →
    containsKey s.groupIdToInfo g.group_id = false →
    rb (newGroupSnapshot s.groupIdToInfo g) = Except.error e →
    muxStep false true rb n s =
      StepResult.yields
        [Except.error (SubscribeError.FailedToStartNewMessagesStream e)]
        { s with convoStream := rest,
                 groupIdToInfo := newGroupSnapshot s.groupIdToInfo g } := by
  intro rb n g rest s e hex hcs hk hrb
  obtain ⟨m, ex, ms, cs⟩ := s
  simp only at hex hcs hk hrb
  subst hex hcs
  simp [muxStep, handleConvoItem, hk, hrb]

/-- C6 witness: a concrete failing rebuild yields the wrapped construction
error and keeps the old stream. -/
theorem claim_C6_rebuild_failure_witness :
    muxStep false true (fun _ => Except.error (ClientError.Generic "boom")) 0
      ⟨[([2], ⟨3, 5⟩)], [], [Except.ok ⟨[7], [8]⟩], [Except.ok ⟨[1], 4⟩]⟩ =
      StepResult.yields
        [Except.error (SubscribeError.FailedToStartNewMessagesStream
          (ClientError.Generic "boom"))]
        ⟨newGroupSnapshot [([2], ⟨3, 5⟩)] ⟨[1], 4⟩, [],
          [Except.ok ⟨[7], [8]⟩], []⟩ :=
  claim_C6_rebuild_failure (fun _ => Except.error (ClientError.Generic "boom")) 0
    ⟨[1], 4⟩ [] ⟨[([2], ⟨3, 5⟩)], [], [Except.ok ⟨[7], [8]⟩], [Except.ok ⟨[1], 4⟩]⟩
    (ClientError.Generic "boom") rfl rfl (by decide) rfl

/-- C1: on a fresh group with a successful rebuild, every item immediately
ready on the old messages stream is pushed into `extra_messages` before the
swap to the new stream, and — by the biased priority — the next iteration
yields all of the buffered items while consuming nothing from either
upstream stream, so they are emitted before any further conversation-stream
event is processed. -/
theorem claim_C1_drain_without_loss :
    ∀ (rb : RebuildOracle) (n : Nat) (g : MlsGroup) (rest : List ConvoItem)
      (s : MuxState) (ns : List OutItem),
    s.extraMessages = [] →
    s.convoStream = Except.ok g :: rest →
    containsKey s.groupIdToInfo g.group_id = false →
    rb (newGroupSnapshot s.groupIdToInfo g) = Except.ok ns →
    muxStep false true rb n s =
      StepResult.yields []
        { groupIdToInfo := newGroupSnapshot s.groupIdToInfo g
          extraMessages := s.messagesStream.take n
          messagesStream := ns
          convoStream := rest }
    ∧ (∀ (s1 : MuxState) (mr cr : Bool) (rb2 : RebuildOracle) (n2 : Nat),
        s1.extraMessages ≠ [] →
        muxStep mr cr rb2 n2 s1 =
          StepResult.yields s1.extraMessages { s1 with extraMessages := [] }) := by
  intro rb n g rest s ns hex hcs hk hrb
  constructor
  · obtain ⟨m, ex, ms, cs⟩ := s
    simp only at hex hcs hk hrb
    subst hex hcs
    simp [muxStep, handleConvoItem, hk, hrb]
  · intro s1 mr cr rb2 n2 h
    exact muxStep_extra_priority mr cr rb2 n2 s1 h

/-- C1 witness: one ready item on the old stream is drained into
`extra_messages` at the swap, and the following iteration yields it first
even with both upstream streams ready. -/
theorem claim_C1_drain_without_loss_witness :
    muxStep false true (fun _ => Except.ok []) 1
      ⟨[([2], ⟨3, 5⟩)], [], [Except.ok ⟨[2], [9]⟩], [Except.ok ⟨[1], 4⟩]⟩ =
      StepResult.yields []
        ⟨newGroupSnapshot [([2], ⟨3, 5⟩)] ⟨[1], 4⟩,
          [Except.ok ⟨[2], [9]⟩], [], []⟩
    ∧ muxStep true true (fun _ => Except.ok []) 0
        ⟨newGroupSnapshot [([2], ⟨3, 5⟩)] ⟨[1], 4⟩,
          [Except.ok ⟨[2], [9]⟩], [], []⟩ =
      StepResult.yields [Except.ok ⟨[2], [9]⟩]
        ⟨newGroupSnapshot [([2], ⟨3, 5⟩)] ⟨[1], 4⟩, [], [], []⟩ := by
  have h := claim_C1_drain_without_loss (fun _ => Except.ok []) 1 ⟨[1], 4⟩ []
    ⟨[([2], ⟨3, 5⟩)], [], [Except.ok ⟨[2], [9]⟩], [Except.ok ⟨[1], 4⟩]⟩ []
    rfl rfl (by decide) rfl
  exact ⟨h.1,
    h.2 ⟨newGroupSnapshot [([2], ⟨3, 5⟩)] ⟨[1], 4⟩, [Except.ok ⟨[2], [9]⟩], [], []⟩
      true true (fun _ => Except.ok []) 0 (by simp)⟩

/-- C10: when the rebuild fails, the map mutations are not rolled back —
the successor state carries the snapshot in which the new group sits at
cursor `1` and every other entry at cursor `0` — and a later re-discovery of
the same `group_id` is skipped by the dedup check without consulting the
rebuild oracle, so no rebuild is retried on its account. -/
theorem claim_C10_no_rollback :
    ∀ (rb : RebuildOracle) (n : Nat) (g : MlsGroup) (rest : List ConvoItem)
      (s : MuxState) (e : ClientError),
    s.extraMessages = [] →
    s.convoStream = Except.ok g :: rest →
    containsKey s.groupIdToInfo g.group_id = false →
    rb (newGroupSnapshot s.groupIdToInfo g) = Except.error e →
    muxStep false true rb n s =
      StepResult.yields
        [Except.error (SubscribeError.FailedToStartNewMessagesStream e)]
        { s with convoStream := rest,
                 groupIdToInfo := newGroupSnapshot s.groupIdToInfo g }
    ∧ lookupEntry (newGroupSnapshot s.groupIdToInfo g) g.group_id =
        some { convo_created_at_ns := g.created_at_ns, cursor := 1 }
    ∧ (∀ k i, k ≠ g.group_id → lookupEntry s.groupIdToInfo k = some i →
        lookupEntry (newGroupSnapshot s.groupIdToInfo g) k =
          some { i with cursor := 0 })
    ∧ (∀ (s2 : MuxState) (g2 : MlsGroup) (rest2 : List ConvoItem)
          (mr : Bool) (rb2 : RebuildOracle) (n2 : Nat),
        s2.groupIdToInfo = newGroupSnapshot s.groupIdToInfo g →
        s2.extraMessages = [] →
        (mr = false ∨ s2.messagesStream = []) →
        s2.convoStream = Except.ok g2 :: rest2 →
        g2.group_id = g.group_id →
        muxStep mr true rb2 n2 s2 =
          StepResult.yields [] { s2 with convoStream := rest2 }) := by
  intro rb n g rest s e hex hcs hk hrb
  refine ⟨?_, (lookupEntry_newGroupSnapshot s.groupIdToInfo g).1, ?_, ?_⟩
  · obtain ⟨m, ex, ms, cs⟩ := s
    simp only at hex hcs hk hrb
    subst hex hcs
    simp [muxStep, handleConvoItem, hk, hrb]
  · intro k i hkne hki
    rw [(lookupEntry_newGroupSnapshot s.groupIdToInfo g).2 k hkne, hki]
    rfl
  · intro s2 g2 rest2 mr rb2 n2 hmap hex2 hmr2 hcs2 hg2
    have hk2 : containsKey s2.groupIdToInfo g2.group_id = true := by
      rw [hmap, hg2, containsKey,
        (lookupEntry_newGroupSnapshot s.groupIdToInfo g).1]
      rfl
    obtain ⟨m2, ex2, ms2, cs2⟩ := s2
    simp only at hex2 hcs2 hk2 hmr2
    subst hex2 hcs2
    rcases hmr2 with h | h
    · subst h
      simp [muxStep, handleConvoItem, hk2]
    · subst h
      cases mr <;> simp [muxStep, handleConvoItem, hk2]

/-- C10 witness: a concrete failed rebuild leaves the snapshot in place and
a re-delivery of the same group id is skipped. -/
theorem claim_C10_no_rollback_witness :
    muxStep false true (fun _ => Except.error (ClientError.Generic "boom")) 0
      ⟨[([2], ⟨3, 5⟩)], [], [], [Except.ok ⟨[1], 4⟩]⟩ =
      StepResult.yields
        [Except.error (SubscribeError.FailedToStartNewMessagesStream
          (ClientError.Generic "boom"))]
        ⟨newGroupSnapshot [([2], ⟨3, 5⟩)] ⟨[1], 4⟩, [], [], []⟩
    ∧ muxStep false true (fun _ => Except.ok [Except.ok ⟨[6], [6]⟩]) 3
        ⟨newGroupSnapshot [([2], ⟨3, 5⟩)] ⟨[1], 4⟩, [], [], [Except.ok ⟨[1], 77⟩]⟩ =
      StepResult.yields []
        ⟨newGroupSnapshot [([2], ⟨3, 5⟩)] ⟨[1], 4⟩, [], [], []⟩ := by
  have h := claim_C10_no_rollback (fun _ => Except.error (ClientError.Generic "boom")) 0
    ⟨[1], 4⟩ [] ⟨[([2], ⟨3, 5⟩)], [], [], [Except.ok ⟨[1], 4⟩]⟩
    (ClientError.Generic "boom") rfl rfl (by decide) rfl
  exact ⟨h.1,
    h.2.2.2 ⟨newGroupSnapshot [([2], ⟨3, 5⟩)] ⟨[1], 4⟩, [], [], [Except.ok ⟨[1], 77⟩]⟩
      ⟨[1], 77⟩ [] false (fun _ => Except.ok [Except.ok ⟨[6], [6]⟩]) 3
      rfl rfl (Or.inl rfl) rfl rfl⟩

/-- C5 counterexample: at the state where both upstream streams are
exhausted and `extra_messages` is empty, the iteration is a panic — every
`select!` branch is disabled and the loop has no `else` arm and no clean
exit — contradicting the claim that exhaustion ends the stream cleanly
without a panic. -/
theorem claim_C5_counterexample :
    muxStep false false (fun _ => Except.ok []) 0
      ⟨[], [], [], []⟩ = StepResult.panics := by
  decide

/-- C5 amended: the loop never terminates cleanly — an iteration yields and
continues, waits, or panics — and it panics exactly when `extra_messages` is
empty and both the messages stream and the conversation stream are
exhausted; termination without panic only happens by external abort. -/
theorem claim_C5_amended_panic_iff :
    ∀ (mr cr : Bool) (rb : RebuildOracle) (n : Nat) (s : MuxState),
      muxStep mr cr rb n s = StepResult.panics ↔
        (s.extraMessages = [] ∧ s.messagesStream = [] ∧ s.convoStream = []) := by
  intro mr cr rb n s
  obtain ⟨m, ex, ms, cs⟩ := s
  cases ex with
  | cons e es => simp [muxStep]
  | nil =>
    cases cs with
    | nil =>
      cases ms with
      | nil => cases mr <;> cases cr <;> simp [muxStep]
      | cons m1 ms1 => cases mr <;> cases cr <;> simp [muxStep]
    | cons c1 cs1 =>
      cases cr with
      | false => cases mr <;> cases ms <;> simp [muxStep]
      | true =>
        obtain ⟨out, s1, hh⟩ :=
          handleConvoItem_yields rb n c1 ⟨m, [], ms, cs1⟩
        cases mr with
        | false => simp [muxStep, hh]
        | true => cases ms <;> simp [muxStep, hh]

end Subscriptions
